import Mathlib

/-!
Verification of the trajectory-viewer application
(src/senf/trajectory-viewer/app.js).

The JavaScript is embedded shallowly:

* JS numbers in the kinematics and error engine are modelled as real
  numbers; where a computation can produce a value that is not a finite
  real (NaN from 0/0 or from arithmetic on an undefined out-of-range
  array element, or the infinite result of Math.min()/Math.max() on an
  empty argument list) the embedding uses Option ℝ with none standing
  for that non-finite value.
* Per-channel arrays are Lean lists; a JS loop pushing one derived entry
  per index is a map over List.range.
* The stateful controllers (playback, chase camera, zoom history) are
  explicit state records with one step function per DOM event handler;
  an event sequence is a List folded over the step function.
* The input file is modelled after the string splitting that the parser
  performs: a list of lines, each a list of whitespace tokens, a token
  being either numeric text (its parseFloat value) or text on which
  parseFloat yields NaN.
-/

namespace TrajViewer

open scoped Classical

noncomputable section

/-- Earth radius constant R_EARTH (app.js line 19). -/
def R_EARTH : ℝ := 6378137.0

/-- Embedding of Math.atan2: the angle of the point (x, y) in (-pi, pi],
with atan2 0 0 = 0 as in JS. -/
def atan2 (y x : ℝ) : ℝ :=
  if 0 < x then Real.arctan (y / x)
  else if x < 0 then
    (if 0 ≤ y then Real.arctan (y / x) + Real.pi else Real.arctan (y / x) - Real.pi)
  else
    (if 0 < y then Real.pi / 2 else if y < 0 then -(Real.pi / 2) else 0)

/-- Result of quaternionToEuler: per-sample roll, pitch and yaw in degrees. -/
structure EulerSeries where
  roll : List ℝ
  pitch : List ℝ
  yaw : List ℝ

/-- Embedding of quaternionToEuler (app.js 165-186). The JS loop runs i over
the indices of qw and pushes one entry per list; the accesses into qx, qy, qz
are modelled with getD (in the application all channel arrays have equal
length, so the default is never consulted under that invariant). -/
def quaternionToEuler (qw qx qy qz : List ℝ) : EulerSeries :=
  { roll := (List.range qw.length).map fun i =>
      atan2 (2 * (qw.getD i 0 * qx.getD i 0 + qy.getD i 0 * qz.getD i 0))
        (1 - 2 * (qx.getD i 0 * qx.getD i 0 + qy.getD i 0 * qy.getD i 0)) * 180 / Real.pi,
    pitch := (List.range qw.length).map fun i =>
      (if 1 ≤ |2 * (qw.getD i 0 * qy.getD i 0 - qz.getD i 0 * qx.getD i 0)| then
        Real.sign (2 * (qw.getD i 0 * qy.getD i 0 - qz.getD i 0 * qx.getD i 0)) * Real.pi / 2
      else
        Real.arcsin (2 * (qw.getD i 0 * qy.getD i 0 - qz.getD i 0 * qx.getD i 0)))
        * 180 / Real.pi,
    yaw := (List.range qw.length).map fun i =>
      atan2 (2 * (qw.getD i 0 * qz.getD i 0 + qx.getD i 0 * qy.getD i 0))
        (1 - 2 * (qy.getD i 0 * qy.getD i 0 + qz.getD i 0 * qz.getD i 0)) * 180 / Real.pi }

/-- A parsed trajectory (Sample Store) as used by the kinematics and error
engine: the 17 per-channel arrays of app.js 128-134, with real-valued
entries. The JS field named by is rendered bY (Lean keyword). -/
structure TrajData where
  time : List ℝ
  lat : List ℝ
  lon : List ℝ
  alt : List ℝ
  vn : List ℝ
  ve : List ℝ
  vd : List ℝ
  qw : List ℝ
  qx : List ℝ
  qy : List ℝ
  qz : List ℝ
  bx : List ℝ
  bY : List ℝ
  bz : List ℝ
  gx : List ℝ
  gy : List ℝ
  gz : List ℝ

/-- The all-empty Sample Store (length 0). -/
def emptyTraj : TrajData :=
  ⟨[], [], [], [], [], [], [], [], [], [], [], [], [], [], [], [], []⟩

/-- Result of computePositionError: the five per-sample error series. -/
structure PosErrors where
  north : List ℝ
  east : List ℝ
  down : List ℝ
  horizontal : List ℝ
  error3d : List ℝ

/-- Embedding of computePositionError (app.js 200-219): the loop runs i over
0..n-1 with n the minimum of the two lat lengths, and pushes one entry per
series per iteration. -/
def computePositionError (ref test : TrajData) : PosErrors :=
  { north := (List.range (min ref.lat.length test.lat.length)).map fun i =>
      (test.lat.getD i 0 - ref.lat.getD i 0) * R_EARTH,
    east := (List.range (min ref.lat.length test.lat.length)).map fun i =>
      (test.lon.getD i 0 - ref.lon.getD i 0) * R_EARTH * Real.cos (ref.lat.getD i 0),
    down := (List.range (min ref.lat.length test.lat.length)).map fun i =>
      test.alt.getD i 0 - ref.alt.getD i 0,
    horizontal := (List.range (min ref.lat.length test.lat.length)).map fun i =>
      Real.sqrt (((test.lat.getD i 0 - ref.lat.getD i 0) * R_EARTH) *
          ((test.lat.getD i 0 - ref.lat.getD i 0) * R_EARTH) +
        ((test.lon.getD i 0 - ref.lon.getD i 0) * R_EARTH * Real.cos (ref.lat.getD i 0)) *
          ((test.lon.getD i 0 - ref.lon.getD i 0) * R_EARTH * Real.cos (ref.lat.getD i 0))),
    error3d := (List.range (min ref.lat.length test.lat.length)).map fun i =>
      Real.sqrt (((test.lat.getD i 0 - ref.lat.getD i 0) * R_EARTH) *
          ((test.lat.getD i 0 - ref.lat.getD i 0) * R_EARTH) +
        ((test.lon.getD i 0 - ref.lon.getD i 0) * R_EARTH * Real.cos (ref.lat.getD i 0)) *
          ((test.lon.getD i 0 - ref.lon.getD i 0) * R_EARTH * Real.cos (ref.lat.getD i 0)) +
        (test.alt.getD i 0 - ref.alt.getD i 0) * (test.alt.getD i 0 - ref.alt.getD i 0)) }

/-- Result of arrayStats. On an empty array the JS code computes
mean = 0/0 = NaN, min = Math.min() = Infinity, max = Math.max() = -Infinity
and std = sqrt(0/0) = NaN; all four non-finite outcomes are modelled
as none. -/
structure Stats where
  mean : Option ℝ
  min : Option ℝ
  max : Option ℝ
  std : Option ℝ

/-- Embedding of arrayStats (app.js 221-227). -/
def arrayStats (arr : List ℝ) : Stats :=
  { mean := if arr.length = 0 then none else some (arr.sum / arr.length),
    min := arr.min?,
    max := arr.max?,
    std := if arr.length = 0 then none else
      some (Real.sqrt (((arr.map fun b => (b - arr.sum / arr.length) ^ 2).sum) / arr.length)) }

/-- Lift a unary real operation to possibly-non-finite JS values. -/
def jsOp1 (f : ℝ → ℝ) : Option ℝ → Option ℝ
  | some a => some (f a)
  | none => none

/-- Lift a binary real operation to possibly-non-finite JS values: an
undefined or NaN operand yields NaN (none). -/
def jsOp2 (f : ℝ → ℝ → ℝ) : Option ℝ → Option ℝ → Option ℝ
  | some a, some b => some (f a b)
  | _, _ => none

/-- Lift a ternary real operation to possibly-non-finite JS values. -/
def jsOp3 (f : ℝ → ℝ → ℝ → ℝ) : Option ℝ → Option ℝ → Option ℝ → Option ℝ
  | some a, some b, some c => some (f a b c)
  | _, _, _ => none

/-- Per-sample speed (app.js 237-239): the map runs over the indices of vn. -/
def speedSeries (d : TrajData) : List ℝ :=
  (List.range d.vn.length).map fun i =>
    Real.sqrt (d.vn.getD i 0 ^ 2 + d.ve.getD i 0 ^ 2 + d.vd.getD i 0 ^ 2)

/-- Per-sample quaternion norm (app.js 243-245): the map runs over the
indices of qw. -/
def quatNormSeries (d : TrajData) : List ℝ :=
  (List.range d.qw.length).map fun i =>
    Real.sqrt (d.qw.getD i 0 ^ 2 + d.qx.getD i 0 ^ 2 + d.qy.getD i 0 ^ 2 + d.qz.getD i 0 ^ 2)

/-- The initial/final blocks of the analysis record (app.js 262-277):
indexing an empty array is undefined in JS and any arithmetic on it NaN,
hence Option ℝ. -/
structure EndState where
  lat : Option ℝ
  lon : Option ℝ
  alt : Option ℝ
  vn : Option ℝ
  ve : Option ℝ
  vd : Option ℝ

/-- The drift block of the analysis record (app.js 278-283). -/
structure Drift where
  north : Option ℝ
  east : Option ℝ
  alt : Option ℝ
  total : Option ℝ

/-- The checks block of the analysis record (app.js 285-292).
speedReasonable is speedStats.max < 500; on an empty store that max is
-Infinity and the JS comparison is true, which the quantification over
the members of the Option captures (vacuously true at none). -/
structure Checks where
  altReasonable : Prop
  speedReasonable : Prop
  quatNormalized : Prop
  altRange : Option ℝ × Option ℝ
  maxSpeed : Option ℝ
  quatRange : Option ℝ × Option ℝ

/-- The record returned by analyzeTrajectory (app.js 259-293). -/
structure Analysis where
  samples : ℕ
  duration : Option ℝ
  initial : EndState
  final : EndState
  drift : Drift
  speed : Stats
  checks : Checks

/-- Embedding of analyzeTrajectory (app.js 232-294). -/
def analyzeTrajectory (d : TrajData) : Analysis :=
  let n := d.time.length
  let speedStats := arrayStats (speedSeries d)
  let quatStats := arrayStats (quatNormSeries d)
  let latDrift := jsOp2 (fun a b => (a - b) * R_EARTH) (d.lat.get? (n - 1)) (d.lat.get? 0)
  let lonDrift := jsOp2 (fun p c => p * Real.cos c)
    (jsOp2 (fun a b => (a - b) * R_EARTH) (d.lon.get? (n - 1)) (d.lon.get? 0))
    (d.lat.get? 0)
  let altDrift := jsOp2 (fun a b => a - b) (d.alt.get? (n - 1)) (d.alt.get? 0)
  { samples := n,
    duration := jsOp2 (fun a b => a - b) (d.time.get? (n - 1)) (d.time.get? 0),
    initial :=
      { lat := jsOp1 (fun x => x * 180 / Real.pi) (d.lat.get? 0),
        lon := jsOp1 (fun x => x * 180 / Real.pi) (d.lon.get? 0),
        alt := d.alt.get? 0, vn := d.vn.get? 0, ve := d.ve.get? 0, vd := d.vd.get? 0 },
    final :=
      { lat := jsOp1 (fun x => x * 180 / Real.pi) (d.lat.get? (n - 1)),
        lon := jsOp1 (fun x => x * 180 / Real.pi) (d.lon.get? (n - 1)),
        alt := d.alt.get? (n - 1), vn := d.vn.get? (n - 1), ve := d.ve.get? (n - 1),
        vd := d.vd.get? (n - 1) },
    drift :=
      { north := latDrift, east := lonDrift, alt := altDrift,
        total := jsOp3 (fun a b c => Real.sqrt (a ^ 2 + b ^ 2 + c ^ 2))
          latDrift lonDrift altDrift },
    speed := speedStats,
    checks :=
      { altReasonable := ∀ a ∈ d.alt, -1000 < a ∧ a < 50000,
        speedReasonable := ∀ m ∈ speedStats.max, m < 500,
        quatNormalized := ∀ q ∈ quatNormSeries d, |q - 1.0| < 0.01,
        altRange := (d.alt.min?, d.alt.max?),
        maxSpeed := speedStats.max,
        quatRange := (quatStats.min, quatStats.max) } }

/-- The issues renderVerdict can put in its issue list (app.js 447-450);
the speed issue string embeds the maximum speed. -/
inductive Issue where
  | altOutOfBounds
  | speedTooHigh (maxSpeed : Option ℝ)
  | quatNotNormalized

/-- Issue list assembled by renderVerdict (app.js 447-450): one entry per
failed check, in source order. -/
def verdictIssues (a : Analysis) : List Issue :=
  (if ¬a.checks.altReasonable then [Issue.altOutOfBounds] else []) ++
  (if ¬a.checks.speedReasonable then [Issue.speedTooHigh a.checks.maxSpeed] else []) ++
  (if ¬a.checks.quatNormalized then [Issue.quatNotNormalized] else [])

/-- The pass/fail verdict of renderVerdict (app.js 443-445). -/
def verdictPassed (a : Analysis) : Prop :=
  a.checks.altReasonable ∧ a.checks.speedReasonable ∧ a.checks.quatNormalized

/-- A whitespace-separated token of an input row: either numeric text
carrying its parseFloat value, or text on which parseFloat returns NaN. -/
inductive Token where
  | num (x : ℝ)
  | other

/-- Embedding of the JS parseFloat applied to one token (NaN modelled
as none). -/
def jsParseFloat : Token → Option ℝ
  | Token.num x => some x
  | Token.other => none

/-- The object built by parseTrajectoryFile (app.js 128-134): 17 parallel
per-channel arrays whose entries may be NaN (none) when a token was not
numeric. The JS field named by is rendered bY (Lean keyword). -/
structure ParsedData where
  time : List (Option ℝ)
  lat : List (Option ℝ)
  lon : List (Option ℝ)
  alt : List (Option ℝ)
  vn : List (Option ℝ)
  ve : List (Option ℝ)
  vd : List (Option ℝ)
  qw : List (Option ℝ)
  qx : List (Option ℝ)
  qy : List (Option ℝ)
  qz : List (Option ℝ)
  bx : List (Option ℝ)
  bY : List (Option ℝ)
  bz : List (Option ℝ)
  gx : List (Option ℝ)
  gy : List (Option ℝ)
  gz : List (Option ℝ)

/-- The data object before any row is pushed (app.js 128-134). -/
def ParsedData.empty : ParsedData :=
  ⟨[], [], [], [], [], [], [], [], [], [], [], [], [], [], [], [], []⟩

/-- One iteration of the forEach loop of parseTrajectoryFile
(app.js 136-157): the line's tokens are mapped through parseFloat and a
row is appended iff there are at least 17 values. -/
def parseRow (d : ParsedData) (line : List Token) : ParsedData :=
  let values := line.map jsParseFloat
  if 17 ≤ values.length then
    { time := d.time ++ [values.getD 0 none],
      lat := d.lat ++ [values.getD 1 none],
      lon := d.lon ++ [values.getD 2 none],
      alt := d.alt ++ [values.getD 3 none],
      vn := d.vn ++ [values.getD 4 none],
      ve := d.ve ++ [values.getD 5 none],
      vd := d.vd ++ [values.getD 6 none],
      qw := d.qw ++ [values.getD 7 none],
      qx := d.qx ++ [values.getD 8 none],
      qy := d.qy ++ [values.getD 9 none],
      qz := d.qz ++ [values.getD 10 none],
      bx := d.bx ++ [values.getD 11 none],
      bY := d.bY ++ [values.getD 12 none],
      bz := d.bz ++ [values.getD 13 none],
      gx := d.gx ++ [values.getD 14 none],
      gy := d.gy ++ [values.getD 15 none],
      gz := d.gz ++ [values.getD 16 none] }
  else d

/-- Embedding of parseTrajectoryFile (app.js 124-160): the content is the
list of its lines, each the list of its whitespace tokens; the first line
(header) is skipped and the remaining lines are folded through the
forEach body. -/
def parseTrajectoryFile (lines : List (List Token)) : ParsedData :=
  (lines.drop 1).foldl parseRow ParsedData.empty

/-- The playback record threeScene.playback (app.js 886-890). The index is
an integer (the slider produces integers and the per-tick step adds 5). -/
structure Playback where
  isPlaying : Bool
  index : ℤ
  lastFrameTime : ℝ

/-- Initial playback state: paused at index 0. -/
def Playback.init : Playback := ⟨false, 0, 0⟩

/-- Embedding of togglePlay (app.js 1021-1035). testData is none when no
test trajectory has been loaded; now is performance.now(). Icon updates
are outside the model. -/
def togglePlay (testData : Option TrajData) (now : ℝ) (s : Playback) : Playback :=
  match testData with
  | none => s
  | some d =>
    if s.isPlaying then { s with isPlaying := false }
    else
      let s1 : Playback := { s with isPlaying := true, lastFrameTime := now }
      if (d.time.length : ℤ) - 1 ≤ s1.index then { s1 with index := 0 } else s1

/-- Embedding of the playback part of one animate frame (app.js 1042-1057):
while playing, the index advances by the fixed speedMultiplier 5 and is
clamped at length-1 (the frame timestamp only updates lastFrameTime); when
the clamped index reaches length-1 the code calls togglePlay. -/
def tick (testData : Option TrajData) (time : ℝ) (s : Playback) : Playback :=
  match testData with
  | none => s
  | some d =>
    if s.isPlaying then
      let s1 : Playback := { s with
        lastFrameTime := time,
        index := min ((d.time.length : ℤ) - 1) (s.index + 5) }
      if (d.time.length : ℤ) - 1 ≤ s1.index then togglePlay (some d) time s1 else s1
    else s

/-- The chaseCameraState record (app.js 864-872). -/
structure ChaseCameraState where
  distance : ℝ
  azimuth : ℝ
  elevation : ℝ
  isDragging : Bool
  lastMouseX : ℝ
  lastMouseY : ℝ

/-- Initial chase camera state (app.js 865-872). -/
def ChaseCameraState.init : ChaseCameraState :=
  { distance := 30, azimuth := Real.pi, elevation := 0.3,
    isDragging := false, lastMouseX := 0, lastMouseY := 0 }

/-- Full camera controller state: chaseCameraState together with the
touchStartDistance closure variable (app.js 954). -/
structure CamCtl where
  cam : ChaseCameraState
  touchStartDistance : ℝ

/-- Initial controller state. -/
def CamCtl.init : CamCtl := ⟨ChaseCameraState.init, 0⟩

/-- The pointer, wheel and touch events delivered to the chase camera
handlers; touch events carry the list of active touch points. -/
inductive CamEvent where
  | mousedown (x y : ℝ)
  | mousemove (x y : ℝ)
  | mouseup
  | mouseleave
  | wheel (deltaY : ℝ)
  | touchstart (touches : List (ℝ × ℝ))
  | touchmove (touches : List (ℝ × ℝ))
  | touchend (touches : List (ℝ × ℝ))
  | touchcancel

/-- The elevation clamp applied by the rotate handlers
(app.js 928-931 and 979-982). -/
def elevClamp (x : ℝ) : ℝ := max (-Real.pi / 2 + 0.1) (min (Real.pi / 2 - 0.1) x)

/-- The distance clamp applied by the wheel and pinch handlers
(app.js 949 and 994). -/
def distClamp (x : ℝ) : ℝ := max 5 (min 200 x)

/-- Distance between two touch points (app.js 965-967 and 988-990). -/
def touchDist (t0 t1 : ℝ × ℝ) : ℝ :=
  Real.sqrt ((t0.1 - t1.1) * (t0.1 - t1.1) + (t0.2 - t1.2) * (t0.2 - t1.2))

/-- One event handler step of the chase camera controller
(app.js 913-1018). -/
def camStep (s : CamCtl) : CamEvent → CamCtl
  | CamEvent.mousedown x y =>
      { s with cam := { s.cam with isDragging := true, lastMouseX := x, lastMouseY := y } }
  | CamEvent.mousemove x y =>
      if s.cam.isDragging then
        { s with cam := { s.cam with
            azimuth := s.cam.azimuth + (x - s.cam.lastMouseX) * 0.01,
            elevation := elevClamp (s.cam.elevation + (y - s.cam.lastMouseY) * 0.01),
            lastMouseX := x, lastMouseY := y } }
      else s
  | CamEvent.mouseup => { s with cam := { s.cam with isDragging := false } }
  | CamEvent.mouseleave => { s with cam := { s.cam with isDragging := false } }
  | CamEvent.wheel deltaY =>
      { s with cam := { s.cam with distance := distClamp (s.cam.distance + deltaY * 0.05) } }
  | CamEvent.touchstart touches =>
      if touches.length = 1 then
        { s with cam := { s.cam with
            isDragging := true,
            lastMouseX := (touches.getD 0 (0, 0)).1, lastMouseY := (touches.getD 0 (0, 0)).2 } }
      else if touches.length = 2 then
        { s with
          cam := { s.cam with isDragging := false },
          touchStartDistance := touchDist (touches.getD 0 (0, 0)) (touches.getD 1 (0, 0)) }
      else s
  | CamEvent.touchmove touches =>
      if touches.length = 1 ∧ s.cam.isDragging then
        { s with cam := { s.cam with
            azimuth := s.cam.azimuth + ((touches.getD 0 (0, 0)).1 - s.cam.lastMouseX) * 0.01,
            elevation := elevClamp
              (s.cam.elevation + ((touches.getD 0 (0, 0)).2 - s.cam.lastMouseY) * 0.01),
            lastMouseX := (touches.getD 0 (0, 0)).1,
            lastMouseY := (touches.getD 0 (0, 0)).2 } }
      else if touches.length = 2 then
        if 0 < s.touchStartDistance then
          { s with
            cam := { s.cam with distance := distClamp (s.cam.distance +
              (s.touchStartDistance - touchDist (touches.getD 0 (0, 0)) (touches.getD 1 (0, 0)))
                * 0.2) },
            touchStartDistance := touchDist (touches.getD 0 (0, 0)) (touches.getD 1 (0, 0)) }
        else s
      else s
  | CamEvent.touchend touches =>
      if touches.length = 0 then
        { s with
          cam := { s.cam with isDragging := false },
          touchStartDistance := 0 }
      else if touches.length = 1 then
        { s with
          cam := { s.cam with
            isDragging := true,
            lastMouseX := (touches.getD 0 (0, 0)).1, lastMouseY := (touches.getD 0 (0, 0)).2 },
          touchStartDistance := 0 }
      else s
  | CamEvent.touchcancel =>
      { s with
        cam := { s.cam with isDragging := false },
        touchStartDistance := 0 }

/-- The controller state after a sequence of input events, starting from
the initial state. -/
def camRun (evs : List CamEvent) : CamCtl := evs.foldl camStep CamCtl.init

/-- A zoom snapshot saved before a zoom begins (app.js 95-98): the x and y
axis ranges of the chart. -/
structure Snap where
  xmin : ℝ
  xmax : ℝ
  ymin : ℝ
  ymax : ℝ

/-- Embedding of saveZoomState (app.js 94-105) on one view's history list:
push the snapshot, then shift out the oldest entry if the length
exceeds 20. -/
def saveZoomState (h : List Snap) (s : Snap) : List Snap :=
  let h1 := h ++ [s]
  if 20 < h1.length then h1.drop 1 else h1

/-- A view name (a key of the zoomHistory object). -/
abbrev ViewName := String

/-- All per-view zoom histories, the zoomHistory object (app.js 30-35);
initially every view's stack is empty (missing keys are also created
empty by saveZoomState). -/
abbrev ZoomHistories := ViewName → List Snap

/-- The initial zoomHistory object. -/
def ZoomHistories.init : ZoomHistories := fun _ => []

/-- The operations that mutate a view's zoom history: the snapshot push at
zoom start (app.js 69-76), the undo-button pop (app.js 108-119) and the
reset-button clear (app.js 1477-1487). -/
inductive ZoomOp where
  | save (view : ViewName) (s : Snap)
  | undo (view : ViewName)
  | reset (view : ViewName)

/-- Effect of one zoom-history operation on the zoomHistory object. The
undo pop only happens when the stack is nonempty (undoZoom returns early
otherwise), which dropLast also models on the empty list. -/
def zoomStep (m : ZoomHistories) : ZoomOp → ZoomHistories
  | ZoomOp.save v s => fun w => if w = v then saveZoomState (m v) s else m w
  | ZoomOp.undo v => fun w => if w = v then (m v).dropLast else m w
  | ZoomOp.reset v => fun w => if w = v then [] else m w

/-- The zoomHistory object after a sequence of operations. -/
def zoomRun (ops : List ZoomOp) : ZoomHistories := ops.foldl zoomStep ZoomHistories.init

/-- A chart as the zoom manager sees it: its current axis ranges
(chart.scales, updated through zoomScale) and the original data-driven
ranges that resetZoom restores. -/
structure ChartView where
  range : Snap
  original : Snap

/-- Embedding of undoZoom (app.js 108-119) on one view: pop the latest
snapshot and apply it as the new axis range via zoomScale, or return
false leaving everything unchanged when the history is empty. -/
def undoZoom (c : ChartView) (h : List Snap) : (ChartView × List Snap) × Bool :=
  match h.getLast? with
  | none => ((c, h), false)
  | some prev => (({ c with range := prev }, h.dropLast), true)

/-- Embedding of the reset-zoom button handler (app.js 1477-1487):
chart.resetZoom() restores the original range and the view's zoom
history is cleared. -/
def resetZoom (c : ChartView) (_h : List Snap) : ChartView × List Snap :=
  ({ c with range := c.original }, [])


/-- The data lines (header skipped) with at least 17 whitespace tokens:
exactly the rows parseTrajectoryFile keeps. -/
def wellFormedRows (lines : List (List Token)) : List (List Token) :=
  (lines.drop 1).filter fun l => 17 ≤ l.length

/-- The safety bounds of the chase camera state: elevation strictly inside
(-pi/2, pi/2) and distance within [5, 200]. -/
def CamInv (s : CamCtl) : Prop :=
  -(Real.pi / 2) < s.cam.elevation ∧ s.cam.elevation < Real.pi / 2 ∧
    5 ≤ s.cam.distance ∧ s.cam.distance ≤ 200

/-- Reference store of the C2 counterexample: one sample at the origin. -/
def refC2 : TrajData := { emptyTraj with time := [0], lat := [0], lon := [0], alt := [0] }

/-- Test store of the C2 counterexample: identical to refC2 except 5 m higher. -/
def testC2 : TrajData := { emptyTraj with time := [0], lat := [0], lon := [0], alt := [5] }

/-- A one-sample store whose altitude sits exactly on the boundary 50000 m. -/
def alt50kTraj : TrajData := { emptyTraj with time := [0], alt := [50000] }

/-- A one-sample store with the implausible altitude 60000 m. -/
def alt60kTraj : TrajData := { emptyTraj with time := [0], alt := [60000] }


/-! Helper lemmas. -/

/-- saveZoomState keeps a history at or below capacity 20. -/
theorem saveZoomState_length_le (h : List Snap) (s : Snap) (hh : h.length ≤ 20) :
    (saveZoomState h s).length ≤ 20 := by
  simp only [saveZoomState]
  split_ifs with hlen
  · simp only [List.length_drop, List.length_append, List.length_singleton]
    omega
  · simp only [List.length_append, List.length_singleton] at hlen ⊢
    omega

/-- Folding any sequence of zoom operations over a capacity-respecting
zoomHistory object keeps every view at or below capacity 20. -/
theorem zoomFold_length_le (ops : List ZoomOp) (m : ZoomHistories)
    (hm : ∀ v, (m v).length ≤ 20) : ∀ v, ((ops.foldl zoomStep m) v).length ≤ 20 := by
  induction ops generalizing m with
  | nil => exact hm
  | cons op ops ih =>
    refine ih _ fun v => ?_
    cases op with
    | save w s =>
      simp only [zoomStep]
      split_ifs with hv
      · exact saveZoomState_length_le _ _ (hm w)
      · exact hm v
    | undo w =>
      simp only [zoomStep]
      split_ifs with hv
      · exact le_trans (List.length_dropLast _ ▸ Nat.sub_le _ _) (hm w)
      · exact hm v
    | reset w =>
      simp only [zoomStep]
      split_ifs with hv
      · simp
      · exact hm v

/-- C6: for every named view and every sequence of snapshot-push, undo
and reset operations the view's zoom history never holds more than 20
entries, and a push onto a full history of 20 entries evicts the oldest
entry (the head) and keeps the newest at the tail. -/
theorem zoomHistory_capacity :
    (∀ (ops : List ZoomOp) (v : ViewName), ((zoomRun ops) v).length ≤ 20) ∧
    (∀ (h : List Snap) (s : Snap), h.length = 20 →
      saveZoomState h s = h.drop 1 ++ [s]) := by
  constructor
  · intro ops v
    exact zoomFold_length_le ops ZoomHistories.init (fun _ => by simp [ZoomHistories.init]) v
  · intro h s hlen
    unfold saveZoomState
    rw [if_pos (by simp [hlen])]
    exact List.drop_append_of_le_length (by omega)

/-- Witness for C6 at a concrete full history of 20 snapshots. -/
theorem zoomHistory_capacity_witness :
    saveZoomState (List.replicate 20 (⟨0, 0, 0, 0⟩ : Snap)) ⟨1, 2, 3, 4⟩ =
      (List.replicate 20 (⟨0, 0, 0, 0⟩ : Snap)).drop 1 ++ [⟨1, 2, 3, 4⟩] :=
  zoomHistory_capacity.2 _ _ (by simp)

/-- C7: undoZoom pops the most recent snapshot of a view's history and
applies it as the new axis range, returning true; on an empty history it
changes nothing and returns false (the "nothing to undo" signal), in
particular immediately after resetZoom, which clears the history. -/
theorem undoZoom_spec :
    (∀ (c : ChartView) (h : List Snap) (s : Snap),
      undoZoom c (h ++ [s]) = (({ c with range := s }, h), true)) ∧
    (∀ c : ChartView, undoZoom c [] = ((c, []), false)) ∧
    (∀ (c : ChartView) (h : List Snap),
      undoZoom (resetZoom c h).1 (resetZoom c h).2 = (((resetZoom c h).1, []), false)) := by
  refine ⟨fun c h s => ?_, fun c => rfl, fun c h => rfl⟩
  simp [undoZoom, List.getLast?_concat, List.dropLast_concat]

/-- C4 counterexample: with a loaded but empty test store (zero samples)
togglePlay is not a no-op: the guard in app.js 1022 only tests that
testData is non-null, so the state transitions Paused to Playing. -/
theorem togglePlay_emptyStore_plays :
    (togglePlay (some emptyTraj) 0 Playback.init).isPlaying = true := by
  simp [togglePlay, Playback.init, emptyTraj]

/-- C4 amended: togglePlay is a no-op only when no test store is loaded
(testData null); with a loaded store, even an empty one, Paused
transitions to Playing, the index resets to 0 exactly when it is at or
past the last sample, and a second call transitions Playing back to
Paused without touching the index. -/
theorem togglePlay_spec (d : TrajData) (t : ℝ) (s : Playback) :
    (togglePlay none t s = s) ∧
    (s.isPlaying = false → (togglePlay (some d) t s).isPlaying = true) ∧
    (s.isPlaying = false → (d.time.length : ℤ) - 1 ≤ s.index →
      (togglePlay (some d) t s).index = 0) ∧
    (s.isPlaying = false → s.index < (d.time.length : ℤ) - 1 →
      (togglePlay (some d) t s).index = s.index) ∧
    (s.isPlaying = true → togglePlay (some d) t s = { s with isPlaying := false }) := by
  refine ⟨rfl, fun hp => ?_, fun hp hi => ?_, fun hp hi => ?_, fun hp => ?_⟩
  · simp only [togglePlay, hp]
    rw [if_neg (by simp)]
    split_ifs <;> rfl
  · simp only [togglePlay, hp]
    rw [if_neg (by simp), if_pos hi]
  · simp only [togglePlay, hp]
    rw [if_neg (by simp), if_neg (not_le.mpr hi)]
  · simp only [togglePlay, hp]
    simp

/-- Witness for C4 amended at a concrete one-sample store. -/
theorem togglePlay_spec_witness :
    togglePlay none 0 Playback.init = Playback.init ∧
    (togglePlay (some { emptyTraj with time := [0] }) 0 Playback.init).isPlaying = true ∧
    (togglePlay (some { emptyTraj with time := [0] }) 0 Playback.init).index = 0 :=
  ⟨(togglePlay_spec { emptyTraj with time := [0] } 0 Playback.init).1,
   (togglePlay_spec { emptyTraj with time := [0] } 0 Playback.init).2.1 rfl,
   (togglePlay_spec { emptyTraj with time := [0] } 0 Playback.init).2.2.1 rfl (by simp [Playback.init])⟩

/-- C3: while Playing on a non-empty test store, one animate tick advances
the index by exactly 5 samples independently of the frame timestamp,
clamps the result at length-1, and pauses exactly when the clamped index
reaches length-1. -/
theorem tick_advance (d : TrajData) (t : ℝ) (s : Playback)
    (hN : 0 < d.time.length) (hplay : s.isPlaying = true) :
    (tick (some d) t s).index = min ((d.time.length : ℤ) - 1) (s.index + 5) ∧
    (s.index + 5 ≤ (d.time.length : ℤ) - 1 → (tick (some d) t s).index = s.index + 5) ∧
    ((d.time.length : ℤ) - 1 ≤ s.index + 5 →
      (tick (some d) t s).index = (d.time.length : ℤ) - 1) ∧
    ((tick (some d) t s).isPlaying = false ↔
      (tick (some d) t s).index = (d.time.length : ℤ) - 1) ∧
    (∀ t2 : ℝ, (tick (some d) t2 s).index = (tick (some d) t s).index) := by
  have hmain : ∀ t3 : ℝ,
      (tick (some d) t3 s).index = min ((d.time.length : ℤ) - 1) (s.index + 5) ∧
      ((tick (some d) t3 s).isPlaying = false ↔
        (tick (some d) t3 s).index = (d.time.length : ℤ) - 1) := by
    intro t3
    simp only [tick, hplay, if_true]
    split_ifs with hc
    · simp only [togglePlay, hplay, if_true]
      refine ⟨trivial, ?_⟩
      simp only [true_iff]
      omega
    · refine ⟨rfl, ?_⟩
      simp only [false_iff]
      intro heq
      omega
  refine ⟨(hmain t).1, fun h5 => ?_, fun hcl => ?_, (hmain t).2, fun t2 => ?_⟩
  · rw [(hmain t).1]; omega
  · rw [(hmain t).1]; omega
  · rw [(hmain t2).1, (hmain t).1]

/-- Witness for C3 at a concrete two-sample store: from index 0 the tick
clamps to index 1 = length - 1. -/
theorem tick_advance_witness :
    (tick (some { emptyTraj with time := [0, 1] }) 0 ⟨true, 0, 0⟩).index =
      min ((({ emptyTraj with time := [0, 1] } : TrajData).time.length : ℤ) - 1) (0 + 5) :=
  (tick_advance { emptyTraj with time := [0, 1] } 0 ⟨true, 0, 0⟩ (by simp) rfl).1


/-- Folding the forEach body over a list of lines appends to every channel
array exactly the parseFloat images of the lines having at least 17 tokens. -/
theorem parseRow_foldl (ls : List (List Token)) (d : ParsedData) :
    ls.foldl parseRow d =
      { time := d.time ++ (ls.filter fun l => 17 ≤ l.length).map
          (fun l => (l.map jsParseFloat).getD 0 none),
        lat := d.lat ++ (ls.filter fun l => 17 ≤ l.length).map
          (fun l => (l.map jsParseFloat).getD 1 none),
        lon := d.lon ++ (ls.filter fun l => 17 ≤ l.length).map
          (fun l => (l.map jsParseFloat).getD 2 none),
        alt := d.alt ++ (ls.filter fun l => 17 ≤ l.length).map
          (fun l => (l.map jsParseFloat).getD 3 none),
        vn := d.vn ++ (ls.filter fun l => 17 ≤ l.length).map
          (fun l => (l.map jsParseFloat).getD 4 none),
        ve := d.ve ++ (ls.filter fun l => 17 ≤ l.length).map
          (fun l => (l.map jsParseFloat).getD 5 none),
        vd := d.vd ++ (ls.filter fun l => 17 ≤ l.length).map
          (fun l => (l.map jsParseFloat).getD 6 none),
        qw := d.qw ++ (ls.filter fun l => 17 ≤ l.length).map
          (fun l => (l.map jsParseFloat).getD 7 none),
        qx := d.qx ++ (ls.filter fun l => 17 ≤ l.length).map
          (fun l => (l.map jsParseFloat).getD 8 none),
        qy := d.qy ++ (ls.filter fun l => 17 ≤ l.length).map
          (fun l => (l.map jsParseFloat).getD 9 none),
        qz := d.qz ++ (ls.filter fun l => 17 ≤ l.length).map
          (fun l => (l.map jsParseFloat).getD 10 none),
        bx := d.bx ++ (ls.filter fun l => 17 ≤ l.length).map
          (fun l => (l.map jsParseFloat).getD 11 none),
        bY := d.bY ++ (ls.filter fun l => 17 ≤ l.length).map
          (fun l => (l.map jsParseFloat).getD 12 none),
        bz := d.bz ++ (ls.filter fun l => 17 ≤ l.length).map
          (fun l => (l.map jsParseFloat).getD 13 none),
        gx := d.gx ++ (ls.filter fun l => 17 ≤ l.length).map
          (fun l => (l.map jsParseFloat).getD 14 none),
        gy := d.gy ++ (ls.filter fun l => 17 ≤ l.length).map
          (fun l => (l.map jsParseFloat).getD 15 none),
        gz := d.gz ++ (ls.filter fun l => 17 ≤ l.length).map
          (fun l => (l.map jsParseFloat).getD 16 none) } := by
  induction ls generalizing d with
  | nil => cases d; simp
  | cons l ls ih =>
    rw [List.foldl_cons, ih]
    by_cases h : 17 ≤ l.length
    · simp [parseRow, h, List.filter_cons, List.append_assoc]
    · simp [parseRow, h, List.filter_cons]

/-- C10: parseTrajectoryFile decides row well-formedness by token count
alone, never by numeric validity: every line after the skipped header
with at least 17 tokens contributes exactly one sample whose 17 channel
values are the parseFloat images of its first 17 tokens (non-numeric
tokens entering as NaN, i.e. none), and all 17 channel arrays always
have identical length. -/
theorem parseTrajectoryFile_spec (lines : List (List Token)) :
    (parseTrajectoryFile lines =
      { time := (wellFormedRows lines).map fun l => (l.map jsParseFloat).getD 0 none,
        lat := (wellFormedRows lines).map fun l => (l.map jsParseFloat).getD 1 none,
        lon := (wellFormedRows lines).map fun l => (l.map jsParseFloat).getD 2 none,
        alt := (wellFormedRows lines).map fun l => (l.map jsParseFloat).getD 3 none,
        vn := (wellFormedRows lines).map fun l => (l.map jsParseFloat).getD 4 none,
        ve := (wellFormedRows lines).map fun l => (l.map jsParseFloat).getD 5 none,
        vd := (wellFormedRows lines).map fun l => (l.map jsParseFloat).getD 6 none,
        qw := (wellFormedRows lines).map fun l => (l.map jsParseFloat).getD 7 none,
        qx := (wellFormedRows lines).map fun l => (l.map jsParseFloat).getD 8 none,
        qy := (wellFormedRows lines).map fun l => (l.map jsParseFloat).getD 9 none,
        qz := (wellFormedRows lines).map fun l => (l.map jsParseFloat).getD 10 none,
        bx := (wellFormedRows lines).map fun l => (l.map jsParseFloat).getD 11 none,
        bY := (wellFormedRows lines).map fun l => (l.map jsParseFloat).getD 12 none,
        bz := (wellFormedRows lines).map fun l => (l.map jsParseFloat).getD 13 none,
        gx := (wellFormedRows lines).map fun l => (l.map jsParseFloat).getD 14 none,
        gy := (wellFormedRows lines).map fun l => (l.map jsParseFloat).getD 15 none,
        gz := (wellFormedRows lines).map fun l => (l.map jsParseFloat).getD 16 none }) ∧
    (parseTrajectoryFile lines).time.length = (wellFormedRows lines).length ∧
    jsParseFloat Token.other = none := by
  have h := parseRow_foldl (lines.drop 1) ParsedData.empty
  refine ⟨?_, ?_, rfl⟩
  · simpa [parseTrajectoryFile, ParsedData.empty, wellFormedRows] using h
  · rw [parseTrajectoryFile, h]
    simp [ParsedData.empty, wellFormedRows]

/-- The elevation clamp keeps the elevation strictly inside (-pi/2, pi/2). -/
theorem elevClamp_bounds (x : ℝ) :
    -(Real.pi / 2) < elevClamp x ∧ elevClamp x < Real.pi / 2 := by
  have hpi := Real.pi_gt_three
  constructor
  · have h := le_max_left (-Real.pi / 2 + 0.1) (min (Real.pi / 2 - 0.1) x)
    unfold elevClamp
    linarith
  · unfold elevClamp
    apply max_lt
    · linarith
    · have h := min_le_left (Real.pi / 2 - 0.1) x
      linarith

/-- The distance clamp keeps the distance within [5, 200]. -/
theorem distClamp_bounds (x : ℝ) : 5 ≤ distClamp x ∧ distClamp x ≤ 200 := by
  unfold distClamp
  exact ⟨le_max_left _ _, max_le (by norm_num) (min_le_left _ _)⟩

/-- Every chase camera event handler preserves the camera bounds. -/
theorem camStep_preserves (s : CamCtl) (e : CamEvent) (hs : CamInv s) :
    CamInv (camStep s e) := by
  obtain ⟨h1, h2, h3, h4⟩ := hs
  cases e with
  | mousedown x y => exact ⟨h1, h2, h3, h4⟩
  | mousemove x y =>
    simp only [camStep]
    split_ifs
    · exact ⟨(elevClamp_bounds _).1, (elevClamp_bounds _).2, h3, h4⟩
    · exact ⟨h1, h2, h3, h4⟩
  | mouseup => exact ⟨h1, h2, h3, h4⟩
  | mouseleave => exact ⟨h1, h2, h3, h4⟩
  | wheel deltaY => exact ⟨h1, h2, (distClamp_bounds _).1, (distClamp_bounds _).2⟩
  | touchstart touches =>
    simp only [camStep]
    split_ifs <;> exact ⟨h1, h2, h3, h4⟩
  | touchmove touches =>
    simp only [camStep]
    split_ifs
    · exact ⟨(elevClamp_bounds _).1, (elevClamp_bounds _).2, h3, h4⟩
    · exact ⟨h1, h2, (distClamp_bounds _).1, (distClamp_bounds _).2⟩
    · exact ⟨h1, h2, h3, h4⟩
    · exact ⟨h1, h2, h3, h4⟩
  | touchend touches =>
    simp only [camStep]
    split_ifs <;> exact ⟨h1, h2, h3, h4⟩
  | touchcancel => exact ⟨h1, h2, h3, h4⟩

/-- The camera bounds hold after folding any event sequence over any
state satisfying them. -/
theorem camFold_inv (evs : List CamEvent) (s : CamCtl) (hs : CamInv s) :
    CamInv (evs.foldl camStep s) := by
  induction evs generalizing s with
  | nil => exact hs
  | cons e es ih => exact ih _ (camStep_preserves s e hs)

/-- C5: starting from the initial chase camera state (distance 30,
elevation 0.3), after every sequence of pointer-drag, wheel and touch
(rotate and pinch) events the elevation stays strictly inside
(-pi/2, pi/2) and the distance stays within [5, 200], regardless of the
cumulative magnitude of the deltas. -/
theorem chaseCamera_bounds (evs : List CamEvent) :
    -(Real.pi / 2) < (camRun evs).cam.elevation ∧
      (camRun evs).cam.elevation < Real.pi / 2 ∧
      5 ≤ (camRun evs).cam.distance ∧ (camRun evs).cam.distance ≤ 200 := by
  have hpi := Real.pi_gt_three
  have hinit : CamInv CamCtl.init := by
    refine ⟨?_, ?_, ?_, ?_⟩ <;> simp [CamCtl.init, ChaseCameraState.init] <;> linarith
  exact camFold_inv evs CamCtl.init hinit


/-- Indexing a map over List.range below the bound. -/
theorem get?_map_range {α : Type} {n i : ℕ} (f : ℕ → α) (h : i < n) :
    ((List.range n).map f).get? i = some (f i) := by
  rw [List.get?_map, List.get?_range h]
  rfl

/-- C2 counterexample: with the reference at altitude 0 and the test at
altitude 5 the code stores down error alt_test - alt_ref = 5; the claimed
formula -(alt_test - alt_ref) would give -5. -/
theorem computePositionError_down_sign :
    (computePositionError refC2 testC2).down = [(5 : ℝ)] ∧
      (computePositionError refC2 testC2).down ≠ [-(5 : ℝ)] := by
  have h : (computePositionError refC2 testC2).down = [(5 : ℝ)] := by
    simp [computePositionError, refC2, testC2, emptyTraj, List.range_succ]
  refine ⟨h, ?_⟩
  rw [h]
  intro hbad
  have : (5 : ℝ) = -5 := by injection hbad
  norm_num at this

/-- C2 amended: computePositionError yields exactly min(N_ref, N_test)
entries per series; the entry at index i depends only on sample i of each
store, uses the reference sample's own latitude in the cosine term, with
down error alt_test - alt_ref (not negated), horizontal error
sqrt(north^2 + east^2) and 3D error additionally including the down
error squared. -/
theorem computePositionError_per_sample (ref test : TrajData) :
    ((computePositionError ref test).north.length = min ref.lat.length test.lat.length ∧
     (computePositionError ref test).east.length = min ref.lat.length test.lat.length ∧
     (computePositionError ref test).down.length = min ref.lat.length test.lat.length ∧
     (computePositionError ref test).horizontal.length = min ref.lat.length test.lat.length ∧
     (computePositionError ref test).error3d.length = min ref.lat.length test.lat.length) ∧
    ∀ (i : ℕ) (hrla : i < ref.lat.length) (htla : i < test.lat.length)
      (hrlo : i < ref.lon.length) (htlo : i < test.lon.length)
      (hral : i < ref.alt.length) (htal : i < test.alt.length),
      (computePositionError ref test).north.get? i =
        some ((test.lat.get ⟨i, htla⟩ - ref.lat.get ⟨i, hrla⟩) * R_EARTH) ∧
      (computePositionError ref test).east.get? i =
        some ((test.lon.get ⟨i, htlo⟩ - ref.lon.get ⟨i, hrlo⟩) * R_EARTH *
          Real.cos (ref.lat.get ⟨i, hrla⟩)) ∧
      (computePositionError ref test).down.get? i =
        some (test.alt.get ⟨i, htal⟩ - ref.alt.get ⟨i, hral⟩) ∧
      (computePositionError ref test).horizontal.get? i =
        some (Real.sqrt
          (((test.lat.get ⟨i, htla⟩ - ref.lat.get ⟨i, hrla⟩) * R_EARTH) *
            ((test.lat.get ⟨i, htla⟩ - ref.lat.get ⟨i, hrla⟩) * R_EARTH) +
          ((test.lon.get ⟨i, htlo⟩ - ref.lon.get ⟨i, hrlo⟩) * R_EARTH *
              Real.cos (ref.lat.get ⟨i, hrla⟩)) *
            ((test.lon.get ⟨i, htlo⟩ - ref.lon.get ⟨i, hrlo⟩) * R_EARTH *
              Real.cos (ref.lat.get ⟨i, hrla⟩)))) ∧
      (computePositionError ref test).error3d.get? i =
        some (Real.sqrt
          (((test.lat.get ⟨i, htla⟩ - ref.lat.get ⟨i, hrla⟩) * R_EARTH) *
            ((test.lat.get ⟨i, htla⟩ - ref.lat.get ⟨i, hrla⟩) * R_EARTH) +
          ((test.lon.get ⟨i, htlo⟩ - ref.lon.get ⟨i, hrlo⟩) * R_EARTH *
              Real.cos (ref.lat.get ⟨i, hrla⟩)) *
            ((test.lon.get ⟨i, htlo⟩ - ref.lon.get ⟨i, hrlo⟩) * R_EARTH *
              Real.cos (ref.lat.get ⟨i, hrla⟩)) +
          (test.alt.get ⟨i, htal⟩ - ref.alt.get ⟨i, hral⟩) *
            (test.alt.get ⟨i, htal⟩ - ref.alt.get ⟨i, hral⟩))) := by
  constructor
  · refine ⟨?_, ?_, ?_, ?_, ?_⟩ <;> simp [computePositionError]
  · intro i hrla htla hrlo htlo hral htal
    have hmin : i < min ref.lat.length test.lat.length := lt_min hrla htla
    have e1 : ref.lat.getD i 0 = ref.lat.get ⟨i, hrla⟩ := List.getD_eq_get _ _ hrla
    have e2 : test.lat.getD i 0 = test.lat.get ⟨i, htla⟩ := List.getD_eq_get _ _ htla
    have e3 : ref.lon.getD i 0 = ref.lon.get ⟨i, hrlo⟩ := List.getD_eq_get _ _ hrlo
    have e4 : test.lon.getD i 0 = test.lon.get ⟨i, htlo⟩ := List.getD_eq_get _ _ htlo
    have e5 : ref.alt.getD i 0 = ref.alt.get ⟨i, hral⟩ := List.getD_eq_get _ _ hral
    have e6 : test.alt.getD i 0 = test.alt.get ⟨i, htal⟩ := List.getD_eq_get _ _ htal
    refine ⟨?_, ?_, ?_, ?_, ?_⟩
    · simp only [computePositionError]
      rw [get?_map_range _ hmin, e1, e2]
    · simp only [computePositionError]
      rw [get?_map_range _ hmin, e1, e3, e4]
    · simp only [computePositionError]
      rw [get?_map_range _ hmin, e5, e6]
    · simp only [computePositionError]
      rw [get?_map_range _ hmin, e1, e2, e3, e4]
    · simp only [computePositionError]
      rw [get?_map_range _ hmin, e1, e2, e3, e4, e5, e6]

/-- Witness for C2 amended at the concrete one-sample stores. -/
theorem computePositionError_per_sample_witness :
    (computePositionError refC2 testC2).down.get? 0 =
      some (testC2.alt.get ⟨0, by simp [testC2, emptyTraj]⟩ -
        refC2.alt.get ⟨0, by simp [refC2, emptyTraj]⟩) :=
  ((computePositionError_per_sample refC2 testC2).2 0
    (by simp [refC2, emptyTraj]) (by simp [testC2, emptyTraj])
    (by simp [refC2, emptyTraj]) (by simp [testC2, emptyTraj])
    (by simp [refC2, emptyTraj]) (by simp [testC2, emptyTraj])).2.2.1


/-- C1: quaternionToEuler computes, per sample,
roll = atan2(2(qw qx + qy qz), 1 - 2(qx^2 + qy^2)),
pitch = asin(2(qw qy - qz qx)) except that when the asin argument has
absolute value at least 1 the pitch is exactly sign of it times pi/2, and
yaw = atan2(2(qw qz + qx qy), 1 - 2(qy^2 + qz^2)), all three converted
to degrees. -/
theorem quaternionToEuler_per_sample (qw qx qy qz : List ℝ) (i : ℕ)
    (hw : i < qw.length) (hx : i < qx.length) (hy : i < qy.length) (hz : i < qz.length) :
    (quaternionToEuler qw qx qy qz).roll.get? i =
      some (atan2
        (2 * (qw.get ⟨i, hw⟩ * qx.get ⟨i, hx⟩ + qy.get ⟨i, hy⟩ * qz.get ⟨i, hz⟩))
        (1 - 2 * (qx.get ⟨i, hx⟩ * qx.get ⟨i, hx⟩ + qy.get ⟨i, hy⟩ * qy.get ⟨i, hy⟩))
        * 180 / Real.pi) ∧
    (1 ≤ |2 * (qw.get ⟨i, hw⟩ * qy.get ⟨i, hy⟩ - qz.get ⟨i, hz⟩ * qx.get ⟨i, hx⟩)| →
      (quaternionToEuler qw qx qy qz).pitch.get? i =
        some (Real.sign
          (2 * (qw.get ⟨i, hw⟩ * qy.get ⟨i, hy⟩ - qz.get ⟨i, hz⟩ * qx.get ⟨i, hx⟩))
          * Real.pi / 2 * 180 / Real.pi)) ∧
    (|2 * (qw.get ⟨i, hw⟩ * qy.get ⟨i, hy⟩ - qz.get ⟨i, hz⟩ * qx.get ⟨i, hx⟩)| < 1 →
      (quaternionToEuler qw qx qy qz).pitch.get? i =
        some (Real.arcsin
          (2 * (qw.get ⟨i, hw⟩ * qy.get ⟨i, hy⟩ - qz.get ⟨i, hz⟩ * qx.get ⟨i, hx⟩))
          * 180 / Real.pi)) ∧
    (quaternionToEuler qw qx qy qz).yaw.get? i =
      some (atan2
        (2 * (qw.get ⟨i, hw⟩ * qz.get ⟨i, hz⟩ + qx.get ⟨i, hx⟩ * qy.get ⟨i, hy⟩))
        (1 - 2 * (qy.get ⟨i, hy⟩ * qy.get ⟨i, hy⟩ + qz.get ⟨i, hz⟩ * qz.get ⟨i, hz⟩))
        * 180 / Real.pi) := by
  have ew : qw.getD i 0 = qw.get ⟨i, hw⟩ := List.getD_eq_get _ _ hw
  have ex : qx.getD i 0 = qx.get ⟨i, hx⟩ := List.getD_eq_get _ _ hx
  have ey : qy.getD i 0 = qy.get ⟨i, hy⟩ := List.getD_eq_get _ _ hy
  have ez : qz.getD i 0 = qz.get ⟨i, hz⟩ := List.getD_eq_get _ _ hz
  refine ⟨?_, ?_, ?_, ?_⟩
  · simp only [quaternionToEuler]
    rw [get?_map_range _ hw, ew, ex, ey, ez]
  · intro hpole
    simp only [quaternionToEuler]
    rw [get?_map_range _ hw, ew, ex, ey, ez, if_pos hpole]
  · intro hin
    simp only [quaternionToEuler]
    rw [get?_map_range _ hw, ew, ex, ey, ez, if_neg (not_le.mpr hin)]
  · simp only [quaternionToEuler]
    rw [get?_map_range _ hw, ew, ex, ey, ez]

/-- Witness for C1 at the identity quaternion. -/
theorem quaternionToEuler_per_sample_witness :
    (quaternionToEuler [1] [0] [0] [0]).roll.get? 0 =
      some (atan2 (2 * (1 * 0 + 0 * 0)) (1 - 2 * (0 * 0 + 0 * 0)) * 180 / Real.pi) :=
  (quaternionToEuler_per_sample [1] [0] [0] [0] 0
    (by simp) (by simp) (by simp) (by simp)).1


/-- jsOp2 propagates an undefined or NaN left operand. -/
theorem jsOp2_none_left (f : ℝ → ℝ → ℝ) (b : Option ℝ) : jsOp2 f none b = none := by
  cases b <;> rfl

/-- jsOp3 propagates an undefined or NaN first operand. -/
theorem jsOp3_none (f : ℝ → ℝ → ℝ → ℝ) (b c : Option ℝ) : jsOp3 f none b c = none := by
  cases b <;> cases c <;> rfl

/-- C8 counterexample: on the empty store the statistics are not "no
data" reports: arrayStats computes mean as the division 0/0 (NaN) and
analyzeTrajectory computes the duration from two undefined array
accesses (NaN). -/
theorem arrayStats_empty_nan :
    (arrayStats ([] : List ℝ)).mean = none ∧
      (analyzeTrajectory emptyTraj).duration = none := by
  constructor
  · simp [arrayStats]
  · simp [analyzeTrajectory, emptyTraj, jsOp2_none_left]

/-- C8 amended: input with zero well-formed rows parses to the length-0
store, and on the empty store the downstream statistics are not "no
data" reports but non-finite numbers: mean and standard deviation are
the NaN of the unguarded 0/0 division, min and max are the infinities of
the empty Math.min/Math.max, and duration and drift are NaN from
undefined indexing. -/
theorem emptyStore_stats (lines : List (List Token))
    (hrows : ∀ l ∈ lines.drop 1, l.length < 17) :
    parseTrajectoryFile lines = ParsedData.empty ∧
    (arrayStats ([] : List ℝ)).mean = none ∧
    (arrayStats ([] : List ℝ)).min = none ∧
    (arrayStats ([] : List ℝ)).max = none ∧
    (arrayStats ([] : List ℝ)).std = none ∧
    (analyzeTrajectory emptyTraj).duration = none ∧
    (analyzeTrajectory emptyTraj).speed.mean = none ∧
    (analyzeTrajectory emptyTraj).speed.min = none ∧
    (analyzeTrajectory emptyTraj).speed.max = none ∧
    (analyzeTrajectory emptyTraj).speed.std = none ∧
    (analyzeTrajectory emptyTraj).drift.north = none ∧
    (analyzeTrajectory emptyTraj).drift.east = none ∧
    (analyzeTrajectory emptyTraj).drift.alt = none ∧
    (analyzeTrajectory emptyTraj).drift.total = none := by
  have hparse : parseTrajectoryFile lines = ParsedData.empty := by
    have h := parseRow_foldl (lines.drop 1) ParsedData.empty
    have hfil : (lines.drop 1).filter (fun l => 17 ≤ l.length) = [] := by
      rw [List.filter_eq_nil]
      intro l hl
      simpa using Nat.not_le.mpr (hrows l hl)
    rw [parseTrajectoryFile, h, hfil]
    rfl
  refine ⟨hparse, ?_, ?_, ?_, ?_, ?_, ?_, ?_, ?_, ?_, ?_, ?_, ?_, ?_⟩ <;>
    simp [analyzeTrajectory, emptyTraj, speedSeries, arrayStats,
      jsOp2_none_left, jsOp3_none]

/-- Witness for C8 amended at a concrete input: a header line and one
malformed single-token row. -/
theorem emptyStore_stats_witness :
    parseTrajectoryFile [[], [Token.other]] = ParsedData.empty :=
  (emptyStore_stats [[], [Token.other]] (by simp)).1

/-- C9 counterexample: a sample at altitude exactly 50000 m lies inside
the claimed closed interval [-1000, 50000] but fails the altitude check,
whose comparisons (app.js 255) are strict. -/
theorem altCheck_boundary :
    (∀ a ∈ alt50kTraj.alt, -1000 ≤ a ∧ a ≤ 50000) ∧
      ¬(analyzeTrajectory alt50kTraj).checks.altReasonable := by
  constructor
  · intro a ha
    simp only [alt50kTraj, emptyTraj, List.mem_singleton] at ha
    subst ha
    norm_num
  · intro hok
    have hmem : (50000 : ℝ) ∈ alt50kTraj.alt := by simp [alt50kTraj]
    have hcontra := hok 50000 hmem
    exact absurd hcontra.2 (by norm_num)

/-- C9 amended: the altitude plausibility check passes iff every sample
altitude is strictly inside the open interval (-1000, 50000) meters; the
altitude issue appears in the verdict's issue list exactly when the check
fails; in particular a trajectory containing a 60000 m sample fails the
check and the failure appears in the issue list. -/
theorem altCheck_spec (d : TrajData) :
    ((analyzeTrajectory d).checks.altReasonable ↔ ∀ a ∈ d.alt, -1000 < a ∧ a < 50000) ∧
    (Issue.altOutOfBounds ∈ verdictIssues (analyzeTrajectory d) ↔
      ¬(analyzeTrajectory d).checks.altReasonable) ∧
    ((60000 : ℝ) ∈ d.alt →
      ¬(analyzeTrajectory d).checks.altReasonable ∧
        Issue.altOutOfBounds ∈ verdictIssues (analyzeTrajectory d)) := by
  have hmem : Issue.altOutOfBounds ∈ verdictIssues (analyzeTrajectory d) ↔
      ¬(analyzeTrajectory d).checks.altReasonable := by
    unfold verdictIssues
    by_cases h : (analyzeTrajectory d).checks.altReasonable
    · simp [h]
    · simp [h]
  refine ⟨Iff.rfl, hmem, fun h60 => ?_⟩
  have hfail : ¬(analyzeTrajectory d).checks.altReasonable := by
    intro hok
    have hcontra := hok 60000 h60
    exact absurd hcontra.2 (by norm_num)
  exact ⟨hfail, hmem.mpr hfail⟩

/-- Witness for C9 amended at the concrete 60000 m store. -/
theorem altCheck_spec_witness :
    ¬(analyzeTrajectory alt60kTraj).checks.altReasonable ∧
      Issue.altOutOfBounds ∈ verdictIssues (analyzeTrajectory alt60kTraj) :=
  (altCheck_spec alt60kTraj).2.2 (by simp [alt60kTraj])

end

end TrajViewer
